import Mathlib

/-!
Shallow embedding of the session subsystem of the next-walkingpad-api
repository: the preflight validator (`api/services/security.py`), the
session lifecycle service (`api/services/exercise.py` and its HTTP
controller `api/controllers/exercise.py`), the streaming session service
(`api/services/exercise_stream.py`), the SSE status stream
(`api/controllers/treadmill.py`), the connection decorator
(`api/services/device.py`) and the calorie helper
(`api/utils/helpers.py`).

Conventions: timestamps are integers (seconds since an arbitrary epoch),
Python floats are embedded as rationals, a raised Python exception is an
`Except.error` carrying the exception message, and each function's
external effects (database statements, device commands) are returned as
an explicit trace.
-/

namespace WalkingPad

/-- Python's built-in `round` on a rational: round half to even. -/
def pyRound (q : ℚ) : ℤ :=
  let fl : ℤ := ⌊q⌋
  if q - fl < 1/2 then fl
  else if 1/2 < q - fl then fl + 1
  else if fl % 2 = 0 then fl else fl + 1

/-- `calculate_calories` from `api/utils/helpers.py` (lines 8-33).
`weight_kg or 70` replaces a missing or zero weight by 70;
`speed_kph = distance_km / (duration_minutes / 60)` raises
`ZeroDivisionError` when `duration_minutes` is zero (modelled as `none`);
the MET tier is chosen from the speed and the result is
`round(met * weight * duration_hours)`. -/
def calculate_calories (distance_km duration_minutes : ℚ)
    (weight_kg : Option ℚ) : Option ℤ :=
  if duration_minutes = 0 then none
  else
    let weight : ℚ :=
      match weight_kg with
      | none => 70
      | some w => if w = 0 then 70 else w
    let speed_kph : ℚ := distance_km / (duration_minutes / 60)
    let met : ℚ :=
      if speed_kph < 16/5 then 2
      else if speed_kph < 24/5 then 3
      else if speed_kph < 32/5 then 7/2
      else 43/10
    some (pyRound (met * weight * (duration_minutes / 60)))

/-- One row of the `exercise_sessions` table (schema used throughout
`api/services/exercise.py` and `api/services/security.py`).
`endTime = none` is an open session. -/
structure Row where
  id : Nat
  userId : Nat
  startTime : ℤ
  endTime : Option ℤ
  durationSeconds : ℤ
  distanceKm : ℚ
  steps : ℤ
  calories : ℤ
  averageSpeed : ℚ
  mode : String
  notes : Option String
  createdAt : ℤ
  updatedAt : ℤ
deriving Repr, DecidableEq

/-- Number of open rows (`end_time IS NULL`) in the table. -/
def openCount (db : List Row) : Nat :=
  (db.filter fun r => r.endTime.isNone).length

/-- Database statements issued by the session subsystem, abstracted to
the statement kind and the targeted row id. -/
inductive DbOp where
  | selectStale
  | updateAutoClose (id : Nat)
  | insertSession (id : Nat)
  | selectOpenSession
  | selectUserWeight (uid : Nat)
  | updateEndSession (id : Nat)
  | deleteSession (id : Nat)
deriving Repr, DecidableEq

/-- Commands written to the device. -/
inductive DeviceCmd where
  | connectDev
  | disconnectDev
  | askStats
  | startBelt
  | stopBelt
  | switchMode (m : Nat)
deriving Repr, DecidableEq

/-- One entry of an effect trace: a database statement or a device
command. -/
inductive Op where
  | db (o : DbOp)
  | dev (c : DeviceCmd)
deriving Repr, DecidableEq

/-- `True` exactly for `INSERT INTO exercise_sessions` statements. -/
def opIsInsert : Op → Bool
  | .db (.insertSession _) => true
  | _ => false

/-- `True` exactly for `DELETE FROM exercise_sessions` statements. -/
def opIsDelete : Op → Bool
  | .db (.deleteSession _) => true
  | _ => false

/-- `True` exactly for the belt-start device command. -/
def opIsStartBelt : Op → Bool
  | .dev .startBelt => true
  | _ => false

namespace SecurityService

/-!  `ExerciseSecurityService` from `api/services/security.py`.  -/

/-- The slice of the device status dictionary consumed by
`check_and_clean_state` (only `belt_state` is read on this path). -/
structure DeviceStatus where
  beltState : String
deriving Repr, DecidableEq

/-- The resident device counters returned by `_get_last_device_stats`
(security.py lines 100-123): `distance` is `stats.dist / 100` km,
`steps` and `time` are raw counters. -/
structure DeviceStats where
  distance : ℚ
  steps : ℤ
  time : ℤ
deriving Repr, DecidableEq

/-- `_has_significant_data` (security.py lines 127-133):
distance above 0.05 km, or more than 50 steps, or more than 30
seconds. -/
def has_significant_data (stats : DeviceStats) : Bool :=
  decide (stats.distance > 1/20) || decide (stats.steps > 50) ||
    decide (stats.time > 30)

/-- The staleness threshold of `_check_incomplete_sessions`:
`INTERVAL '3 hours'` in seconds. -/
def STALE_SECONDS : ℤ := 3 * 3600

/-- `_check_incomplete_sessions` (security.py lines 57-68): the open
sessions started more than three hours ago.  The SQL also orders the
result by `start_time DESC`; the order only fixes the sequence of the
subsequent per-id updates, which target pairwise distinct ids, so it is
dropped here. -/
def check_incomplete_sessions (db : List Row) (now : ℤ) : List Row :=
  db.filter fun r =>
    r.endTime.isNone && decide (r.startTime < now - STALE_SECONDS)

/-- `estimated_end` of `_cleanup_incomplete_sessions` (security.py
lines 76-81): `min(start_time + 30 minutes, now)`. -/
def estimated_end (startTime now : ℤ) : ℤ :=
  min (startTime + 30 * 60) now

/-- The `notes` value written by the auto-close UPDATE. -/
def autoCloseNote : String := "Auto-closed by system - Session was incomplete"

/-- The auto-close UPDATE of `_cleanup_incomplete_sessions` (security.py
lines 83-92) applied to one matching row: `end_time = estimated_end`,
`updated_at = NOW()`, the fixed note, and
`duration_seconds = estimated_end - start_time`. -/
def autoCloseUpdate (r : Row) (capturedStart now : ℤ) : Row :=
  { r with
    endTime := some (estimated_end capturedStart now)
    updatedAt := now
    notes := some autoCloseNote
    durationSeconds := estimated_end capturedStart now - r.startTime }

/-- One `UPDATE ... WHERE id = %s` statement: every row whose id matches
is rewritten. -/
def applyAutoClose (db : List Row) (sid : Nat) (capturedStart now : ℤ) :
    List Row :=
  db.map fun r =>
    if r.id = sid then autoCloseUpdate r capturedStart now else r

/-- The loop of `_cleanup_incomplete_sessions` (security.py lines
70-98).  `failAt = some k` models the k-th UPDATE raising; the
surrounding `try` swallows the exception, keeping the updates already
applied (continue-on-cleanup-failure). -/
def cleanupGo (db : List Row) (sessions : List Row) (now : ℤ)
    (failAt : Option Nat) (i : Nat) : List Row :=
  match sessions with
  | [] => db
  | s :: rest =>
      if failAt = some i then db
      else cleanupGo (applyAutoClose db s.id s.startTime now) rest now failAt
        (i + 1)

/-- `_cleanup_incomplete_sessions` over a list of stale sessions. -/
def cleanup_incomplete_sessions (db : List Row) (sessions : List Row)
    (now : ℤ) (failAt : Option Nat) : List Row :=
  cleanupGo db sessions now failAt 0

/-- The environment of one `check_and_clean_state` run: the outcome of
every fallible collaborator call, in program order. -/
structure Env where
  /-- Outcome of `device.get_status()`. -/
  getStatus : Except String DeviceStatus
  /-- Outcome of the force-stop `device.stop_walking()` (used only when
  the belt is neither idle nor standby). -/
  stopWalking : Except String Unit
  /-- Outcome of the `_check_incomplete_sessions` SELECT. -/
  checkQuery : Except String Unit
  /-- Index of the auto-close UPDATE that raises, if any (swallowed). -/
  cleanupFailAt : Option Nat
  /-- Outcome of `_get_last_device_stats`: it catches its own errors and
  returns `None`, but its `finally` disconnect can still raise
  (`Except.error`). -/
  lastStats : Except String (Option DeviceStats)
  /-- Outcome of `_reset_device_state` (raises on failure). -/
  resetDevice : Except String Unit
deriving Repr

/-- Message returned when unsaved resident data is found (security.py
line 46). -/
def unsavedDataMsg : String :=
  "Unsaved session data found. Please check history and confirm before starting new session."

/-- Trace of `_get_last_device_stats` (security.py lines 100-125):
connect, switch to manual mode, ask stats, disconnect in `finally`. -/
def lastStatsTrace : List Op :=
  [.dev .connectDev, .dev (.switchMode 1), .dev .askStats,
   .dev .disconnectDev]

/-- Trace of `_reset_device_state` (security.py lines 135-151). -/
def resetTrace : List Op :=
  [.dev .connectDev, .dev (.switchMode 1), .dev .disconnectDev]

/-- The condition of step 2 of `check_and_clean_state` (security.py
line 29): `current_status.get('belt_state') not in ['idle', 'standby']`. -/
def needsStop (st : DeviceStatus) : Bool :=
  !(st.beltState = "idle" || st.beltState = "standby")

/-- Step 2 of `check_and_clean_state` (security.py lines 28-32): stop
the belt when it is not idle/standby; the first component is the
outcome of the step, the second its device-command trace. -/
def stopStep : Bool → Except String Unit → Except String Unit × List Op
  | false, _ => (.ok (), [])
  | true, outcome => (outcome, [.dev .stopBelt])

/-- The body of `check_and_clean_state` (security.py lines 23-51),
i.e. everything inside its `try`.  Returns the pre-catch outcome, the
table after the statements that did execute, and the effect trace. -/
def check_and_clean_inner (env : Env) (db : List Row) (now : ℤ) :
    Except String (Bool × Option String) × List Row × List Op :=
  match env.getStatus with
  | .error e => (.error e, db, [.dev .askStats])
  | .ok st =>
    let stop := stopStep (needsStop st) env.stopWalking
    let tr1 : List Op := .dev .askStats :: stop.2
    match stop.1 with
    | .error e => (.error e, db, tr1)
    | .ok _ =>
      match env.checkQuery with
      | .error e => (.error e, db, tr1 ++ [.db .selectStale])
      | .ok _ =>
        let stale := check_incomplete_sessions db now
        let db1 := cleanup_incomplete_sessions db stale now env.cleanupFailAt
        let tr2 := tr1 ++ [.db .selectStale] ++
          (stale.map fun s => Op.db (.updateAutoClose s.id))
        match env.lastStats with
        | .error e => (.error e, db1, tr2 ++ lastStatsTrace)
        | .ok stats =>
          let tr3 := tr2 ++ lastStatsTrace
          match (stats.map has_significant_data).getD false with
          | true => (.ok (false, some unsavedDataMsg), db1, tr3)
          | false =>
            match env.resetDevice with
            | .error e => (.error e, db1, tr3 ++ resetTrace)
            | .ok _ => (.ok (true, none), db1, tr3 ++ resetTrace)

/-- The message prefix of the outer exception handler (security.py
line 55). -/
def stateCleanupFailedMsg (e : String) : String :=
  "State cleanup failed: " ++ e

/-- `check_and_clean_state` (security.py lines 18-55): the body wrapped
in the `except Exception` handler that converts every raised error into
`(False, "State cleanup failed: ...")`. -/
def check_and_clean_state (env : Env) (db : List Row) (now : ℤ) :
    (Bool × Option String) × List Row × List Op :=
  match check_and_clean_inner env db now with
  | (.ok r, db2, tr) => (r, db2, tr)
  | (.error e, db2, tr) => ((false, some (stateCleanupFailedMsg e)), db2, tr)

end SecurityService

namespace ExerciseService

/-!  `ExerciseService` from `api/services/exercise.py` and its HTTP
controller `api/controllers/exercise.py`.  -/

/-- In-memory state of the service process: the table, the next id the
store will assign, and `self.current_session`. -/
structure ServiceState where
  db : List Row
  nextId : Nat
  mem : Option Row
deriving Repr, DecidableEq

/-- Environment of one `start_session` call. -/
structure StartEnv where
  /-- Environment of the embedded `check_and_clean_state` preflight. -/
  sec : SecurityService.Env
  /-- Outcome of `device.start_walking()`. -/
  startWalking : Except String Unit
  /-- Whether the INSERT ... RETURNING yields a row. -/
  insertOk : Bool
  /-- `datetime.now()` of the call. -/
  now : ℤ
deriving Repr

/-- The row inserted by `start_session` (exercise.py lines 86-126):
`user_id = 1`, `start_time = created_at = now`, mode `'manual'`, all
metrics zeroed; `end_time` is absent from the column list, so NULL. -/
def newSessionRow (id : Nat) (now : ℤ) : Row :=
  { id := id, userId := 1, startTime := now, endTime := none,
    durationSeconds := 0, distanceKm := 0, steps := 0, calories := 0,
    averageSpeed := 0, mode := "manual", notes := none,
    createdAt := now, updatedAt := now }

/-- `start_session` (exercise.py lines 62-150).  Preflight via
`check_and_clean_state`; a not-ready verdict raises `ValueError` with
the verdict's message; then `device.start_walking()`, then the INSERT.
The `except` clause issues a best-effort `stop_walking` and re-raises.
Note there is no in-memory current-session guard at this level. -/
def start_session (env : StartEnv) (st : ServiceState) :
    Except String Row × ServiceState × List Op :=
  let secRes := SecurityService.check_and_clean_state env.sec st.db env.now
  let verdict := secRes.1
  let db1 := secRes.2.1
  let tr1 := secRes.2.2
  if verdict.1 = false then
    -- raise ValueError(error_message), caught below: best-effort stop
    (.error (verdict.2.getD ""), { st with db := db1 },
      tr1 ++ [.dev .stopBelt])
  else
    match env.startWalking with
    | .error e =>
        (.error e, { st with db := db1 },
          tr1 ++ [.dev .startBelt, .dev .stopBelt])
    | .ok _ =>
        let tr2 := tr1 ++ [.dev .startBelt]
        if env.insertOk then
          let row := newSessionRow st.nextId env.now
          (.ok row,
            { db := db1 ++ [row], nextId := st.nextId + 1, mem := some row },
            tr2 ++ [.db (.insertSession st.nextId)])
        else
          (.error "Failed to create exercise session - no data returned",
            { st with db := db1 },
            tr2 ++ [.db (.insertSession st.nextId), .dev .stopBelt])

/-- Final metrics dictionary of `_get_device_metrics` (exercise.py lines
34-60).  The retry loop catches every error and falls back to the last
cached metrics or zeros, so the call always yields a dictionary. -/
structure Metrics where
  distanceKm : ℚ
  durationSeconds : ℤ
  steps : ℤ
  speed : ℚ
deriving Repr, DecidableEq

/-- Environment of one `end_session` call. -/
structure EndEnv where
  /-- Value produced by `_get_device_metrics` (never raises). -/
  metrics : Metrics
  /-- Outcome of `device.stop_walking()`. -/
  stopWalking : Except String Unit
  /-- `SELECT weight_kg FROM users` result (`none` = no row, weight 70
  is then used). -/
  userWeight : Option ℚ
  /-- Whether the final UPDATE ... RETURNING yields a row. -/
  updateOk : Bool
  /-- `datetime.now()` of the call. -/
  now : ℤ
deriving Repr

/-- The most recent open row: `SELECT ... WHERE end_time IS NULL ORDER
BY start_time DESC LIMIT 1` (exercise.py lines 159-164). -/
def latestOpenRow (db : List Row) : Option Row :=
  (db.filter fun r => r.endTime.isNone).foldl
    (fun acc r =>
      match acc with
      | none => some r
      | some b => if b.startTime < r.startTime then some r else some b)
    none

/-- The UPDATE of `end_session` (exercise.py lines 204-227) applied to
one matching row. -/
def endUpdate (r : Row) (env : EndEnv) (durationSeconds : ℤ)
    (calories : ℤ) (averageSpeed : ℚ) : Row :=
  { r with
    endTime := some env.now
    steps := env.metrics.steps
    distanceKm := env.metrics.distanceKm
    durationSeconds := durationSeconds
    calories := calories
    averageSpeed := averageSpeed
    updatedAt := env.now }

/-- `duration_seconds` of `end_session` (exercise.py lines 182-183):
the device metric or the wall-clock duration, whichever is larger. -/
def endDuration (env : EndEnv) (cur : Row) : ℤ :=
  max env.metrics.durationSeconds (env.now - cur.startTime)

/-- `duration_minutes` of `end_session` (exercise.py line 193). -/
def endDurationMinutes (env : EndEnv) (cur : Row) : ℚ :=
  (endDuration env cur : ℚ) / 60

/-- The calorie computation of `end_session` (exercise.py lines
186-198), with the user's weight defaulting to 70. -/
def endCalories (env : EndEnv) (cur : Row) : Option ℤ :=
  calculate_calories env.metrics.distanceKm (endDurationMinutes env cur)
    (some (env.userWeight.getD 70))

/-- `average_speed` of `end_session` (exercise.py line 201), guarded to
0 when the duration is not positive. -/
def endAvgSpeed (env : EndEnv) (cur : Row) : ℚ :=
  if 0 < endDurationMinutes env cur then
    env.metrics.distanceKm / (endDurationMinutes env cur / 60)
  else 0

/-- The trace of step 1 of `end_session`: the fallback SELECT runs only
when no session is tracked in memory. -/
def endTrace0 : Option Row → List Op
  | some _ => []
  | none => [.db .selectOpenSession]

/-- `end_session` (exercise.py lines 152-253).  Falls back to the most
recent open row when no session is tracked in memory (and keeps that
assignment even if a later step raises); stops the device; computes
duration, calories and average speed; updates the row and clears the
in-memory pointer.  The `except` clause issues a best-effort stop and
re-raises. -/
def end_session (env : EndEnv) (st : ServiceState) :
    Except String Row × ServiceState × List Op :=
  match st.mem, latestOpenRow st.db with
  | none, none =>
      -- raise ValueError("No active session found"); best-effort stop
      (.error "No active session found", st,
        [.db .selectOpenSession, .dev .stopBelt])
  | mem0, found =>
    match (match mem0 with | some s => some s | none => found) with
    | none =>
        (.error "No active session found", st,
          [.db .selectOpenSession, .dev .stopBelt])
    | some cur =>
      match env.stopWalking with
      | .error e =>
          (.error e, { st with mem := some cur },
            endTrace0 mem0 ++ [.dev .stopBelt, .dev .stopBelt])
      | .ok _ =>
        match endCalories env cur with
        | none =>
            -- ZeroDivisionError inside calculate_calories propagates
            (.error "float division by zero", { st with mem := some cur },
              endTrace0 mem0 ++ [.dev .stopBelt,
                .db (.selectUserWeight cur.userId), .dev .stopBelt])
        | some cals =>
          if env.updateOk then
            (.ok (endUpdate cur env (endDuration env cur) cals
                (endAvgSpeed env cur)),
              { st with
                db := st.db.map fun r =>
                  if r.id = cur.id then
                    endUpdate r env (endDuration env cur) cals
                      (endAvgSpeed env cur)
                  else r,
                mem := none },
              endTrace0 mem0 ++ [.dev .stopBelt,
                .db (.selectUserWeight cur.userId),
                .db (.updateEndSession cur.id)])
          else
            (.error "Failed to update session in database",
              { st with mem := some cur },
              endTrace0 mem0 ++ [.dev .stopBelt,
                .db (.selectUserWeight cur.userId),
                .db (.updateEndSession cur.id), .dev .stopBelt])

/-- HTTP result of the start/stop endpoints in
`api/controllers/exercise.py`. -/
inductive ApiResult where
  | ok (sessionId : Nat)
  | conflict (msg : String)
  | notFound (msg : String)
  | serverError (msg : String)
deriving Repr, DecidableEq

/-- Message of the controller's already-active guard
(controllers/exercise.py line 25). -/
def activeSessionMsg : String := "An active session already exists"

/-- `start_session_stream` (controllers/exercise.py lines 15-43): a 409
when a session is already tracked in memory, otherwise delegate to the
service. -/
def start_session_endpoint (env : StartEnv) (st : ServiceState) :
    ApiResult × ServiceState × List Op :=
  match st.mem with
  | some _ => (.conflict activeSessionMsg, st, [])
  | none =>
    match start_session env st with
    | (.ok row, st2, tr) => (.ok row.id, st2, tr)
    | (.error e, st2, tr) => (.serverError e, st2, tr)

/-- `stop_session` (controllers/exercise.py lines 116-138): a 404 when
no session is tracked in memory, otherwise delegate to the service. -/
def stop_session_endpoint (env : EndEnv) (st : ServiceState) :
    ApiResult × ServiceState × List Op :=
  match st.mem with
  | none => (.notFound "No active session found", st, [])
  | some _ =>
    match end_session env st with
    | (.ok row, st2, tr) => (.ok row.id, st2, tr)
    | (.error e, st2, tr) => (.serverError e, st2, tr)

/-- One step of a session-lifecycle history: a start call, an end call,
or a process restart (the in-memory tracking is lost; no session row is
touched). -/
inductive Step where
  | start (env : StartEnv)
  | stop (env : EndEnv)
  | restart
deriving Repr

/-- Run a history of lifecycle steps through the HTTP endpoints. -/
def runSteps (st : ServiceState) : List Step → ServiceState
  | [] => st
  | .start env :: rest => runSteps (start_session_endpoint env st).2.1 rest
  | .stop env :: rest => runSteps (stop_session_endpoint env st).2.1 rest
  | .restart :: rest => runSteps { st with mem := none } rest

end ExerciseService

namespace ExerciseStreamService

/-!  `ExerciseStreamService` from `api/services/exercise_stream.py`.  -/

/-- `MAX_RECONNECT_ATTEMPTS` (exercise_stream.py line 29). -/
def MAX_RECONNECT_ATTEMPTS : Nat := 3

/-- Error message of the start-retry loop (exercise_stream.py line 78). -/
def connectFailedMsg : String := "Failed to connect after multiple attempts"

/-- Error message of `_attempt_reconnect` (exercise_stream.py line 142). -/
def reconnectFailedMsg : String := "Failed to reconnect to device"

/-- Environment of one `ExerciseStreamService.start_session` call. -/
structure StreamStartEnv where
  /-- Whether the INSERT ... RETURNING yields a row. -/
  insertOk : Bool
  /-- Per-attempt outcome of the connect + set_mode + start_walking
  block (true = the whole attempt succeeds); attempt `i` reads index
  `i`, a missing index counts as failure. -/
  connectAttempts : List Bool
  /-- Outcome of the cleanup DELETE (a failure is swallowed). -/
  deleteOk : Bool
  /-- `datetime.now()` of the call. -/
  now : ℤ
deriving Repr, DecidableEq

/-- The row inserted by the streaming `start_session`
(exercise_stream.py lines 49-55): only `user_id = 1`,
`start_time = created_at = now` and mode `'manual'` are set. -/
def newStreamRow (id : Nat) (now : ℤ) : Row :=
  { id := id, userId := 1, startTime := now, endTime := none,
    durationSeconds := 0, distanceKm := 0, steps := 0, calories := 0,
    averageSpeed := 0, mode := "manual", notes := none,
    createdAt := now, updatedAt := now }

/-- Whether one of the first `MAX_RECONNECT_ATTEMPTS` connection
attempts succeeds (exercise_stream.py lines 65-78). -/
def connectSucceeds (attempts : List Bool) : Bool :=
  (List.range MAX_RECONNECT_ATTEMPTS).any fun i => attempts.getD i false

/-- `_cleanup_failed_session` (exercise_stream.py lines 92-99):
`DELETE FROM exercise_sessions WHERE id = %s`; a failure of the DELETE
is swallowed. -/
def cleanup_failed_session (db : List Row) (sid : Nat) (deleteOk : Bool) :
    List Row :=
  if deleteOk then db.filter fun r => !(r.id = sid : Bool) else db

/-- `ExerciseStreamService.start_session` (exercise_stream.py lines
42-90): INSERT first, then up to three device-connection attempts; on
any raise the `except` clause runs `_cleanup_failed_session` on the
session currently held in memory (the freshly inserted row, or a
leftover one when the INSERT itself failed) and re-raises. -/
def start_session (env : StreamStartEnv) (st : ExerciseService.ServiceState) :
    Except String Row × ExerciseService.ServiceState × List Op :=
  if env.insertOk then
    let row := newStreamRow st.nextId env.now
    let db1 := st.db ++ [row]
    if connectSucceeds env.connectAttempts then
      (.ok row, { db := db1, nextId := st.nextId + 1, mem := some row },
        [.db (.insertSession st.nextId), .dev .connectDev,
         .dev (.switchMode 1), .dev .startBelt])
    else
      -- raise after MAX_RECONNECT_ATTEMPTS failures; cleanup deletes
      -- the row just created, then re-raise
      (.error connectFailedMsg,
        { db := cleanup_failed_session db1 st.nextId env.deleteOk,
          nextId := st.nextId + 1, mem := some row },
        [.db (.insertSession st.nextId), .dev .connectDev,
         .db (.deleteSession st.nextId)])
  else
    match st.mem with
    | some old =>
        (.error "Failed to create exercise session",
          { st with db := cleanup_failed_session st.db old.id env.deleteOk },
          [.db (.insertSession st.nextId), .db (.deleteSession old.id)])
    | none =>
        (.error "Failed to create exercise session", st,
          [.db (.insertSession st.nextId)])

/-- Result of `_attempt_reconnect` (exercise_stream.py lines 129-142):
whether the device was reconnected, how many attempts ran (each one
disconnects, sleeps `RECONNECT_DELAY`, reconnects), whether the
streaming session is still active afterwards, and the raised error. -/
structure ReconnectResult where
  reconnected : Bool
  attemptsMade : Nat
  delaysSlept : Nat
  sessionActive : Bool
  errorMsg : Option String
deriving Repr, DecidableEq

/-- The retry loop of `_attempt_reconnect`: `attempt` is the current
index of `for attempt in range(MAX_RECONNECT_ATTEMPTS)` and the second
argument the remaining attempts; `outcomes i` is the success of the
i-th `connect()` (each attempt first disconnects and sleeps
`RECONNECT_DELAY`).  When the loop falls through, the method sets
`_session_active = False` and raises. -/
def reconnectLoop (outcomes : Nat → Bool) : Nat → Nat → ReconnectResult
  | _, 0 =>
      { reconnected := false, attemptsMade := MAX_RECONNECT_ATTEMPTS,
        delaysSlept := MAX_RECONNECT_ATTEMPTS, sessionActive := false,
        errorMsg := some reconnectFailedMsg }
  | attempt, remaining + 1 =>
      if outcomes attempt then
        { reconnected := true, attemptsMade := attempt + 1,
          delaysSlept := attempt + 1, sessionActive := true,
          errorMsg := none }
      else reconnectLoop outcomes (attempt + 1) remaining

/-- `_attempt_reconnect` (exercise_stream.py lines 129-142). -/
def attempt_reconnect (outcomes : Nat → Bool) : ReconnectResult :=
  reconnectLoop outcomes 0 MAX_RECONNECT_ATTEMPTS

end ExerciseStreamService

namespace TreadmillStream

/-!  The SSE generator `stream_treadmill_data.async_generate` and
`is_idle_status` from `api/controllers/treadmill.py` (lines 191-341). -/

/-- `MAX_IDLE_COUNT` (treadmill.py line 255). -/
def MAX_IDLE_COUNT : Nat := 3

/-- The raw status object read from `controller.last_status`; the
fields consumed by the stream loop. -/
structure RawStatus where
  speed : Nat
  dist : Nat
  steps : Nat
  time : Nat
  state : Nat
deriving Repr, DecidableEq

/-- `is_idle_status` (treadmill.py lines 199-210): speed, distance,
steps, time and belt state all zero. -/
def is_idle_status (s : RawStatus) : Bool :=
  s.speed = 0 && s.dist = 0 && s.steps = 0 && s.time = 0 && s.state = 0

/-- What one loop iteration observes: a status reading (possibly
`None`), or an exception raised inside the iteration body. -/
inductive StreamInput where
  | reading (s : Option RawStatus)
  | exn (e : String)
deriving Repr, DecidableEq

/-- The SSE events the generator yields. -/
inductive StreamEvent where
  /-- A formatted status dictionary. -/
  | status (s : RawStatus)
  /-- The `'No status available'` error event. -/
  | noStatus
  /-- The in-band `'reconnecting'` error event. -/
  | reconnecting (e : String)
  /-- The final idle-disconnect event (`handle_idle_disconnect`,
  `belt_state_text = "Stopped"`). -/
  | stoppedFinal
deriving Repr, DecidableEq

/-- The `while True` loop of `async_generate` (treadmill.py lines
260-333), as a function from the iteration observations to the emitted
events.  An exhausted input list models external cancellation of the
stream.  On the `MAX_IDLE_COUNT`-th consecutive idle reading the loop
yields the idle-disconnect event and returns; an idle reading below the
bound still yields the formatted status; a non-idle reading resets the
counter. -/
def streamRun (idleCount : Nat) : List StreamInput → List StreamEvent
  | [] => []
  | .exn e :: rest => .reconnecting e :: streamRun idleCount rest
  | .reading none :: rest => .noStatus :: streamRun idleCount rest
  | .reading (some s) :: rest =>
      if is_idle_status s then
        if MAX_IDLE_COUNT ≤ idleCount + 1 then [.stoppedFinal]
        else .status s :: streamRun (idleCount + 1) rest
      else .status s :: streamRun 0 rest

/-- The full stream: the loop starts with a zero idle counter
(treadmill.py line 254). -/
def stream (inputs : List StreamInput) : List StreamEvent :=
  streamRun 0 inputs

end TreadmillStream

namespace DeviceService

/-!  The `ensure_connection` decorator from `api/services/device.py`
(lines 23-54).  -/

/-- Observable outcome of one decorated call. -/
structure WrapResult (α : Type) where
  result : Except String α
  connectCalled : Bool
  fnRan : Bool
  disconnectCalled : Bool
  connectedAfter : Bool
deriving Repr

/-- `ensure_connection(disconnect_after)` applied to a call whose body
outcome is `fn` on a service whose `is_connected` is `wasConnected`.
`connect()` runs before the `try`, so a connect failure propagates
without running the body or the `finally`; the `finally` disconnects
when the connection was freshly opened or `disconnect_after` is set. -/
def ensure_connection (disconnectAfter wasConnected : Bool)
    (connectOutcome : Except String Unit) (fn : Except String α) :
    WrapResult α :=
  if wasConnected then
    { result := fn, connectCalled := false, fnRan := true,
      disconnectCalled := disconnectAfter,
      connectedAfter := !disconnectAfter }
  else
    match connectOutcome with
    | .error e =>
        { result := .error e, connectCalled := true, fnRan := false,
          disconnectCalled := false, connectedAfter := false }
    | .ok _ =>
        { result := fn, connectCalled := true, fnRan := true,
          disconnectCalled := true, connectedAfter := false }

/-- The release condition the specification ascribes to
`withConnection`: disconnect unless the caller requested persistent
continuation or the connection was already open on entry.  Stated from
the spec's words for comparison with `ensure_connection`, where
`persistent` corresponds to `disconnect_after = false`. -/
def specClaimedRelease (persistent wasConnected : Bool) : Bool :=
  !persistent && !wasConnected

end DeviceService

/-- Whether an `Except` value is a success. -/
def exceptIsOk : Except ε α → Bool
  | .ok _ => true
  | .error _ => false

/-- Whether a lifecycle step is a process restart. -/
def ExerciseService.Step.isRestart : ExerciseService.Step → Bool
  | .restart => true
  | _ => false

/-- The single-process invariant the lifecycle endpoints maintain: with
no tracked session nothing is open; with a tracked session every open
row is the tracked one and at most one row is open. -/
def ExerciseService.Inv (st : ExerciseService.ServiceState) : Prop :=
  (st.mem = none → openCount st.db = 0) ∧
  ∀ s, st.mem = some s →
    (∀ row ∈ st.db, row.endTime = none → row.id = s.id) ∧
      openCount st.db ≤ 1

/-!  Concrete sample inputs used by counterexamples and witnesses.  -/

/-- A preflight environment in which every collaborator call succeeds,
the belt is idle and the device remembers no resident data. -/
def cleanSecEnv : SecurityService.Env :=
  { getStatus := .ok ⟨"idle"⟩, stopWalking := .ok (), checkQuery := .ok (),
    cleanupFailAt := none, lastStats := .ok none, resetDevice := .ok () }

/-- Like `cleanSecEnv`, but the device reports 120 resident steps. -/
def sigSecEnv : SecurityService.Env :=
  { cleanSecEnv with lastStats := .ok (some ⟨0, 120, 0⟩) }

/-- Like `cleanSecEnv`, but `device.get_status()` raises a connection
error. -/
def errSecEnv : SecurityService.Env :=
  { cleanSecEnv with getStatus := .error "Connection failed" }

/-- A fully successful `start_session` environment at time `now`. -/
def okStartEnv (now : ℤ) : ExerciseService.StartEnv :=
  { sec := cleanSecEnv, startWalking := .ok (), insertOk := true,
    now := now }

/-- A `start_session` environment whose preflight finds 120 resident
steps. -/
def sigStartEnv (now : ℤ) : ExerciseService.StartEnv :=
  { sec := sigSecEnv, startWalking := .ok (), insertOk := true,
    now := now }

/-- The empty service state: empty table, no tracked session. -/
def emptyState : ExerciseService.ServiceState :=
  { db := [], nextId := 0, mem := none }

/-- A state whose table holds one open row that is also tracked in
memory. -/
def memState : ExerciseService.ServiceState :=
  { db := [ExerciseService.newSessionRow 0 0], nextId := 1,
    mem := some (ExerciseService.newSessionRow 0 0) }

/-- A streaming start environment: the INSERT succeeds, all three
device-connection attempts fail, the cleanup DELETE succeeds. -/
def streamFailEnv : ExerciseStreamService.StreamStartEnv :=
  { insertOk := true, connectAttempts := [false, false, false],
    deleteOk := true, now := 0 }

/-- A four-hour-old open session row. -/
def staleRow : Row :=
  { id := 7, userId := 1, startTime := 0, endTime := none,
    durationSeconds := 0, distanceKm := 0, steps := 0, calories := 0,
    averageSpeed := 0, mode := "manual", notes := none, createdAt := 0,
    updatedAt := 0 }

/-- An all-zero raw status snapshot (idle). -/
def idleRaw : TreadmillStream.RawStatus := ⟨0, 0, 0, 0, 0⟩

/-- A raw status snapshot of a running belt. -/
def runningRaw : TreadmillStream.RawStatus := ⟨25, 10, 40, 60, 2⟩

/-- The state reached by a successful session start followed by a
process restart: one open row, no in-memory tracking. -/
def c1State : ExerciseService.ServiceState :=
  ExerciseService.runSteps emptyState [.start (okStartEnv 0), .restart]

/-- One step of replaying the auto-close loop on a single row: apply
the UPDATE captured from stale session `s` when the row's id matches. -/
def closeStep (now : ℤ) (acc s : Row) : Row :=
  if acc.id = s.id then SecurityService.autoCloseUpdate acc s.startTime now
  else acc

/-- The combined effect of the whole auto-close loop on a single row:
the per-id UPDATEs replayed in order. -/
def closeFold (sessions : List Row) (r : Row) (now : ℤ) : Row :=
  sessions.foldl (closeStep now) r

/-!  Helper lemmas about the preflight cleanup and the effect traces. -/

theorem applyAutoClose_length (db : List Row) (sid : Nat)
    (cs now : ℤ) : (SecurityService.applyAutoClose db sid cs now).length
      = db.length := by
  simp [SecurityService.applyAutoClose]

theorem cleanupGo_length (sessions db : List Row) (now : ℤ)
    (failAt : Option Nat) (i : Nat) :
    (SecurityService.cleanupGo db sessions now failAt i).length = db.length := by
  induction sessions generalizing db i with
  | nil => rfl
  | cons s rest ih =>
      unfold SecurityService.cleanupGo
      split
      · rfl
      · rw [ih, applyAutoClose_length]

theorem applyAutoClose_open_mem {db : List Row} {sid : Nat} {cs now : ℤ}
    {r : Row} (h : r ∈ SecurityService.applyAutoClose db sid cs now)
    (hopen : r.endTime = none) : r ∈ db := by
  unfold SecurityService.applyAutoClose at h
  obtain ⟨r1, hr1, hmap⟩ := List.mem_map.mp h
  by_cases hid : r1.id = sid
  · rw [if_pos hid] at hmap
    rw [← hmap] at hopen
    simp [SecurityService.autoCloseUpdate] at hopen
  · rw [if_neg hid] at hmap
    rwa [← hmap]

theorem cleanupGo_open_mem {sessions : List Row} :
    ∀ {db : List Row} {now : ℤ} {failAt : Option Nat} {i : Nat} {r : Row},
    r ∈ SecurityService.cleanupGo db sessions now failAt i →
    r.endTime = none → r ∈ db := by
  induction sessions with
  | nil => intro db now failAt i r h _; exact h
  | cons s rest ih =>
      intro db now failAt i r h hopen
      unfold SecurityService.cleanupGo at h
      split at h
      · exact h
      · exact applyAutoClose_open_mem (ih h hopen) hopen

theorem openCount_map_le (f : Row → Row)
    (hf : ∀ r, (f r).endTime.isNone = true → r.endTime.isNone = true)
    (db : List Row) : openCount (db.map f) ≤ openCount db := by
  induction db with
  | nil => simp [openCount]
  | cons r t ih =>
      simp only [openCount, List.map_cons, List.filter_cons] at ih ⊢
      by_cases h : (f r).endTime.isNone = true
      · rw [if_pos h, if_pos (hf r h)]
        simpa using ih
      · rw [if_neg h]
        split
        · exact Nat.le_succ_of_le ih
        · exact ih

theorem applyAutoClose_openCount_le (db : List Row) (sid : Nat)
    (cs now : ℤ) :
    openCount (SecurityService.applyAutoClose db sid cs now) ≤ openCount db := by
  apply openCount_map_le
  intro r h
  by_cases hid : r.id = sid
  · rw [if_pos hid] at h
    simp [SecurityService.autoCloseUpdate] at h
  · rwa [if_neg hid] at h

theorem cleanupGo_openCount_le (sessions : List Row) :
    ∀ (db : List Row) (now : ℤ) (failAt : Option Nat) (i : Nat),
    openCount (SecurityService.cleanupGo db sessions now failAt i) ≤
      openCount db := by
  induction sessions with
  | nil => intro db now failAt i; exact Nat.le_refl _
  | cons s rest ih =>
      intro db now failAt i
      unfold SecurityService.cleanupGo
      split
      · exact Nat.le_refl _
      · exact Nat.le_trans (ih _ now failAt (i + 1))
          (applyAutoClose_openCount_le db s.id s.startTime now)

theorem openCount_eq_zero {db : List Row} :
    openCount db = 0 ↔ ∀ r ∈ db, r.endTime ≠ none := by
  simp [openCount, List.length_eq_zero, List.filter_eq_nil_iff,
    Option.isNone_iff_eq_none]

theorem inner_ok_shape {env : SecurityService.Env} {db : List Row} {now : ℤ}
    {r : Bool × Option String}
    (h : (SecurityService.check_and_clean_inner env db now).1 = .ok r) :
    r = (true, none) ∨ r = (false, some SecurityService.unsavedDataMsg) := by
  rcases env with ⟨gs, sw, cq, cfa, ls, rd⟩
  rcases gs with e | st
  · simp [SecurityService.check_and_clean_inner] at h
  · cases hb : SecurityService.needsStop st <;>
      rcases sw with e2 | u2 <;> rcases cq with e3 | u3 <;>
      rcases rd with e5 | u5 <;> rcases ls with e4 | ols <;>
      try rcases ols with _ | stats
    all_goals
      try cases hs : SecurityService.has_significant_data stats
    all_goals
      simp_all [SecurityService.check_and_clean_inner,
        SecurityService.stopStep]

theorem sec_db_cases (env : SecurityService.Env) (db : List Row) (now : ℤ) :
    (SecurityService.check_and_clean_state env db now).2.1 = db ∨
    (SecurityService.check_and_clean_state env db now).2.1 =
      SecurityService.cleanup_incomplete_sessions db
        (SecurityService.check_incomplete_sessions db now) now
        env.cleanupFailAt := by
  rcases env with ⟨gs, sw, cq, cfa, ls, rd⟩
  rcases gs with e | st
  · simp [SecurityService.check_and_clean_state,
      SecurityService.check_and_clean_inner]
  · cases hb : SecurityService.needsStop st <;>
      rcases sw with e2 | u2 <;> rcases cq with e3 | u3 <;>
      rcases rd with e5 | u5 <;> rcases ls with e4 | ols <;>
      try rcases ols with _ | stats
    all_goals
      try cases hs : SecurityService.has_significant_data stats
    all_goals
      simp_all [SecurityService.check_and_clean_state,
        SecurityService.check_and_clean_inner, SecurityService.stopStep]

theorem sec_db_openCount_le (env : SecurityService.Env) (db : List Row)
    (now : ℤ) :
    openCount (SecurityService.check_and_clean_state env db now).2.1 ≤
      openCount db := by
  rcases sec_db_cases env db now with h | h <;> rw [h]
  exact cleanupGo_openCount_le _ db now env.cleanupFailAt 0

theorem outer_of_inner_error {env : SecurityService.Env} {db : List Row}
    {now : ℤ} {e : String}
    (he : (SecurityService.check_and_clean_inner env db now).1 = .error e) :
    (SecurityService.check_and_clean_state env db now).1 =
      (false, some (SecurityService.stateCleanupFailedMsg e)) := by
  unfold SecurityService.check_and_clean_state
  rcases hI : SecurityService.check_and_clean_inner env db now with
    ⟨res, db2, tr⟩
  rcases res with e2 | r <;> simp_all

theorem sec_db_open_mem {env : SecurityService.Env} {db : List Row}
    {now : ℤ} {r : Row}
    (h : r ∈ (SecurityService.check_and_clean_state env db now).2.1)
    (hopen : r.endTime = none) : r ∈ db := by
  rcases sec_db_cases env db now with hc | hc <;> rw [hc] at h
  · exact h
  · exact cleanupGo_open_mem h hopen

theorem sec_db_length (env : SecurityService.Env) (db : List Row)
    (now : ℤ) :
    (SecurityService.check_and_clean_state env db now).2.1.length =
      db.length := by
  rcases sec_db_cases env db now with h | h <;> rw [h]
  exact cleanupGo_length _ db now env.cleanupFailAt 0

theorem sec_trace_ops (env : SecurityService.Env) (db : List Row)
    (now : ℤ) :
    ((SecurityService.check_and_clean_state env db now).2.2).all
      (fun op => !opIsInsert op && !opIsStartBelt op && !opIsDelete op)
      = true := by
  rcases env with ⟨gs, sw, cq, cfa, ls, rd⟩
  rcases gs with e | st
  · simp [SecurityService.check_and_clean_state,
      SecurityService.check_and_clean_inner, opIsInsert, opIsStartBelt,
      opIsDelete]
  · cases hb : SecurityService.needsStop st <;>
      rcases sw with e2 | u2 <;> rcases cq with e3 | u3 <;>
      rcases rd with e5 | u5 <;> rcases ls with e4 | ols <;>
      try rcases ols with _ | stats
    all_goals
      try cases hs : SecurityService.has_significant_data stats
    all_goals
      simp_all [SecurityService.check_and_clean_state,
        SecurityService.check_and_clean_inner, SecurityService.stopStep,
        SecurityService.lastStatsTrace, SecurityService.resetTrace,
        List.all_eq_true, opIsInsert, opIsStartBelt, opIsDelete]

theorem autoCloseUpdate_id (r : Row) (cs now : ℤ) :
    (SecurityService.autoCloseUpdate r cs now).id = r.id := rfl

theorem cleanupGo_eq_map (sessions : List Row) :
    ∀ (db : List Row) (now : ℤ) (i : Nat),
    SecurityService.cleanupGo db sessions now none i =
      db.map (fun r => closeFold sessions r now) := by
  induction sessions with
  | nil => intro db now i; simp [SecurityService.cleanupGo, closeFold]
  | cons s rest ih =>
      intro db now i
      unfold SecurityService.cleanupGo
      rw [if_neg (by simp)]
      rw [ih]
      unfold SecurityService.applyAutoClose
      rw [List.map_map]
      rfl

theorem closeFold_no_match (now : ℤ) (l : List Row) :
    ∀ acc : Row, (∀ s ∈ l, s.id ≠ acc.id) → closeFold l acc now = acc := by
  induction l with
  | nil => intro acc _; rfl
  | cons s rest ih =>
      intro acc h
      simp only [closeFold, List.foldl_cons]
      rw [show closeStep now acc s = acc from by
        unfold closeStep
        rw [if_neg fun heq => h s (List.mem_cons_self s rest) heq.symm]]
      exact ih acc fun t ht => h t (List.mem_cons_of_mem s ht)

theorem closeFold_append_unique (now : ℤ) (l1 l2 : List Row) (r : Row)
    (h1 : ∀ s ∈ l1, s.id ≠ r.id) (h2 : ∀ s ∈ l2, s.id ≠ r.id) :
    closeFold (l1 ++ r :: l2) r now =
      SecurityService.autoCloseUpdate r r.startTime now := by
  unfold closeFold
  rw [List.foldl_append]
  rw [show List.foldl (closeStep now) r l1 = r from
    closeFold_no_match now l1 r h1]
  simp only [List.foldl_cons]
  rw [show closeStep now r r =
      SecurityService.autoCloseUpdate r r.startTime now from by
    unfold closeStep
    rw [if_pos rfl]]
  exact closeFold_no_match now l2 _ fun s hs => h2 s hs

theorem sec_trace_no_delete (env : SecurityService.Env) (db : List Row)
    (now : ℤ) :
    ((SecurityService.check_and_clean_state env db now).2.2).all
      (fun op => !opIsDelete op) = true := by
  have htr := sec_trace_ops env db now
  rw [List.all_eq_true] at htr ⊢
  intro op hop
  have h := htr op hop
  simp only [Bool.and_eq_true] at h
  exact h.2

/-!  The claim theorems.  -/

/-- C4 counterexample: the calorie computation with `distance_km = 0`,
`duration_minutes = 60` and weight 70 kg returns 140 calories, not 0
(the MET formula multiplies by duration, not by distance). -/
theorem c4_counterexample :
    calculate_calories 0 60 (some 70) = some 140 ∧ (140 : ℤ) ≠ 0 := by
  constructor
  · simp only [calculate_calories, pyRound]
    norm_num
  · decide

/-- C4 (amended): with `distance_km = 0`, weight 70 kg and any nonzero
duration, the computed speed is 0, the slow-walking MET tier 2.0
applies, and the result is `round(2.0 * 70 * duration_hours)` =
`round(140 * duration_minutes / 60)` calories; a zero duration raises
`ZeroDivisionError` instead of returning. -/
theorem c4_zero_distance_calories (d : ℚ) (hd : d ≠ 0) :
    calculate_calories 0 d (some 70) =
      some (pyRound (140 * (d / 60))) ∧
    calculate_calories 0 0 (some 70) = none := by
  refine ⟨?_, rfl⟩
  unfold calculate_calories
  rw [if_neg hd]
  norm_num

/-- C4 witness: the amended claim evaluated at a 60-minute session. -/
theorem c4_witness :
    calculate_calories 0 60 (some 70) = some (pyRound (140 * (60 / 60))) :=
  (c4_zero_distance_calories 60 (by norm_num)).1

/-- C5: with `MAX_IDLE_COUNT = 3`, after exactly 3 consecutive idle
classifications the SSE stream emits exactly one final stopped event
and then produces no further events regardless of later inputs; an
active reading below the bound resets the counter and the stream
continues. -/
theorem c5_idle_termination (s1 s2 s3 s4 : TreadmillStream.RawStatus)
    (h1 : TreadmillStream.is_idle_status s1 = true)
    (h2 : TreadmillStream.is_idle_status s2 = true)
    (h3 : TreadmillStream.is_idle_status s3 = true)
    (h4 : TreadmillStream.is_idle_status s4 = false) :
    (∀ rest, TreadmillStream.stream
        (.reading (some s1) :: .reading (some s2) :: .reading (some s3)
          :: rest)
      = [.status s1, .status s2, .stoppedFinal])
    ∧ TreadmillStream.stream
        [.reading (some s1), .reading (some s2), .reading (some s4),
         .reading (some s3)]
      = [.status s1, .status s2, .status s4, .status s3] := by
  constructor
  · intro rest
    simp [TreadmillStream.stream, TreadmillStream.streamRun, h1, h2, h3,
      TreadmillStream.MAX_IDLE_COUNT]
  · simp [TreadmillStream.stream, TreadmillStream.streamRun, h1, h2, h3, h4,
      TreadmillStream.MAX_IDLE_COUNT]

/-- C5 witness: three idle snapshots terminate the stream with one
stopped event even though input remains; two idles followed by an
active reading keep it alive. -/
theorem c5_witness :
    TreadmillStream.stream
      [.reading (some idleRaw), .reading (some idleRaw),
       .reading (some idleRaw), .reading (some runningRaw)] =
      [.status idleRaw, .status idleRaw, .stoppedFinal]
    ∧ TreadmillStream.stream
      [.reading (some idleRaw), .reading (some idleRaw),
       .reading (some runningRaw), .reading (some idleRaw)] =
      [.status idleRaw, .status idleRaw, .status runningRaw,
       .status idleRaw] :=
  ⟨(c5_idle_termination idleRaw idleRaw idleRaw runningRaw rfl rfl rfl
      rfl).1 [.reading (some runningRaw)],
   (c5_idle_termination idleRaw idleRaw idleRaw runningRaw rfl rfl rfl
      rfl).2⟩

/-- C6: with `MAX_RECONNECT_ATTEMPTS = 3`, two consecutive connection
failures leave `_attempt_reconnect` retrying (a third attempt runs,
each attempt after the fixed `RECONNECT_DELAY` sleep), while a third
consecutive failure terminates it: `_session_active` is cleared and the
explicit terminal error is raised. -/
theorem c6_reconnect_bound (outcomes : Nat → Bool) :
    (outcomes 0 = false → outcomes 1 = false → outcomes 2 = true →
      ExerciseStreamService.attempt_reconnect outcomes =
        { reconnected := true, attemptsMade := 3, delaysSlept := 3,
          sessionActive := true, errorMsg := none })
    ∧ (outcomes 0 = false → outcomes 1 = false → outcomes 2 = false →
      ExerciseStreamService.attempt_reconnect outcomes =
        { reconnected := false, attemptsMade := 3, delaysSlept := 3,
          sessionActive := false,
          errorMsg := some ExerciseStreamService.reconnectFailedMsg }) := by
  constructor <;> intro h0 h1 h2 <;>
    simp [ExerciseStreamService.attempt_reconnect,
      ExerciseStreamService.reconnectLoop,
      ExerciseStreamService.MAX_RECONNECT_ATTEMPTS, h0, h1, h2]

/-- C6 witness: the reconnect loop evaluated on a run whose third
attempt succeeds and on a run whose attempts all fail. -/
theorem c6_witness :
    ExerciseStreamService.attempt_reconnect (fun n => decide (n = 2)) =
      { reconnected := true, attemptsMade := 3, delaysSlept := 3,
        sessionActive := true, errorMsg := none }
    ∧ ExerciseStreamService.attempt_reconnect (fun _ => false) =
      { reconnected := false, attemptsMade := 3, delaysSlept := 3,
        sessionActive := false,
        errorMsg := some ExerciseStreamService.reconnectFailedMsg } :=
  ⟨(c6_reconnect_bound (fun n => decide (n = 2))).1 rfl rfl rfl,
   (c6_reconnect_bound (fun _ => false)).2 rfl rfl rfl⟩

/-- C7 counterexample: a persistent call (`disconnect_after = false`)
entering with the connection closed does get disconnected on exit,
although the specification's release condition says a persistent
request must not be released; so the claimed condition "disconnect
unless persistent or already open on entry" does not match the code. -/
theorem c7_counterexample :
    (DeviceService.ensure_connection false false (.ok ())
      (.ok (0 : Nat))).disconnectCalled = true
    ∧ DeviceService.specClaimedRelease true false = false :=
  ⟨rfl, rfl⟩

/-- C7 (amended): `ensure_connection` connects iff the connection was
closed on entry; if the body runs (entry connected, or connect
succeeded) the `finally` release runs on both the return and the raise
path and disconnects iff the connection was freshly opened or
`disconnect_after` was requested — so a pre-existing connection
survives exactly when `disconnect_after = false`, and a freshly opened
one never survives; if `connect()` itself fails, the body never runs
and no disconnect is attempted. -/
theorem c7_ensure_connection (dA w : Bool) (c : Except String Unit)
    (fn : Except String Nat) :
    (DeviceService.ensure_connection dA w c fn).connectCalled = !w
    ∧ (w = true → DeviceService.ensure_connection dA w c fn =
        ⟨fn, false, true, dA, !dA⟩)
    ∧ (w = false → c = .ok () → DeviceService.ensure_connection dA w c fn =
        ⟨fn, true, true, true, false⟩)
    ∧ (∀ e, w = false → c = .error e →
        DeviceService.ensure_connection dA w c fn =
          ⟨.error e, true, false, false, false⟩) := by
  cases w <;> rcases c with e | u <;>
    simp [DeviceService.ensure_connection]

/-- C7 witness: the amended contract evaluated at concrete inputs for
the kept-connection, fresh-connection and failed-connect cases. -/
theorem c7_witness :
    DeviceService.ensure_connection false true (.ok ()) (.ok 5) =
      ⟨.ok 5, false, true, false, true⟩
    ∧ DeviceService.ensure_connection false false (.ok ())
        ((Except.error "boom") : Except String Nat) =
      ⟨.error "boom", true, true, true, false⟩ :=
  ⟨(c7_ensure_connection false true (.ok ()) (.ok 5)).2.1 rfl,
   (c7_ensure_connection false false (.ok ()) (.error "boom")).2.2.1 rfl rfl⟩

/-- C10: `check_and_clean_state` never propagates an exception: every
failure raised inside its body is converted into the pair
`(False, "State cleanup failed: <error>")`, and the call always returns
either `(True, None)` or `(False, some message)`. -/
theorem c10_never_raises (env : SecurityService.Env) (db : List Row)
    (now : ℤ) :
    (∀ e, (SecurityService.check_and_clean_inner env db now).1 = .error e →
      (SecurityService.check_and_clean_state env db now).1 =
        (false, some (SecurityService.stateCleanupFailedMsg e)))
    ∧ ((SecurityService.check_and_clean_state env db now).1 = (true, none)
       ∨ ∃ m, (SecurityService.check_and_clean_state env db now).1 =
           (false, some m)) := by
  constructor
  · intro e he
    exact outer_of_inner_error he
  · rcases hI : SecurityService.check_and_clean_inner env db now with
      ⟨res, db2, tr⟩
    unfold SecurityService.check_and_clean_state
    rw [hI]
    rcases res with e | r
    · right; exact ⟨_, rfl⟩
    · have hr : r = (true, none) ∨
          r = (false, some SecurityService.unsavedDataMsg) :=
        inner_ok_shape (by rw [hI])
      rcases hr with rfl | rfl
      · left; rfl
      · right; exact ⟨_, rfl⟩

/-- C2: when the preflight reaches the resident-counter check and the
device reports significant activity (distance above 0.05 km, or more
than 50 steps, or more than 30 seconds), `check_and_clean_state`
returns `ready = false` with the save-first message, and a
`start_session` gated by that preflight raises that message, inserts no
session row, leaves the in-memory session untouched and issues no
belt-start command. -/
theorem c2_significant_data_blocks (env : SecurityService.Env)
    (db : List Row) (now : ℤ) (ds : SecurityService.DeviceStatus)
    (stats : SecurityService.DeviceStats)
    (hgs : env.getStatus = .ok ds)
    (hstop : (SecurityService.stopStep (SecurityService.needsStop ds)
      env.stopWalking).1 = .ok ())
    (hcq : env.checkQuery = .ok ())
    (hls : env.lastStats = .ok (some stats))
    (hsig : SecurityService.has_significant_data stats = true) :
    (SecurityService.check_and_clean_state env db now).1 =
      (false, some SecurityService.unsavedDataMsg)
    ∧ ∀ (se : ExerciseService.StartEnv)
        (st : ExerciseService.ServiceState),
        se.sec = env → st.db = db → se.now = now →
        (ExerciseService.start_session se st).1 =
          .error SecurityService.unsavedDataMsg
        ∧ (ExerciseService.start_session se st).2.1.mem = st.mem
        ∧ (ExerciseService.start_session se st).2.1.db.length =
            st.db.length
        ∧ ((ExerciseService.start_session se st).2.2.all
            fun op => !opIsInsert op && !opIsStartBelt op) = true := by
  have h1 : (SecurityService.check_and_clean_state env db now).1 =
      (false, some SecurityService.unsavedDataMsg) := by
    simp only [SecurityService.check_and_clean_state,
      SecurityService.check_and_clean_inner, hgs, hstop, hcq, hls,
      Option.map_some', Option.getD_some, hsig]
  refine ⟨h1, ?_⟩
  intro se st hse hdb hnow
  have hall : ((SecurityService.check_and_clean_state env db now).2.2).all
      (fun op => !opIsInsert op && !opIsStartBelt op) = true := by
    have htr := sec_trace_ops env db now
    rw [List.all_eq_true] at htr ⊢
    intro op hop
    have := htr op hop
    simp only [Bool.and_eq_true] at this ⊢
    exact ⟨this.1.1, this.1.2⟩
  have hlen := sec_db_length env db now
  rcases hS : SecurityService.check_and_clean_state env db now with
    ⟨v, db1, tr1⟩
  rw [hS] at h1 hall hlen
  dsimp only at h1 hall hlen
  subst h1
  have hstart : ExerciseService.start_session se st =
      (.error SecurityService.unsavedDataMsg,
       { st with db := db1 }, tr1 ++ [.dev .stopBelt]) := by
    unfold ExerciseService.start_session
    rw [hse, hdb, hnow, hS]
    rfl
  refine ⟨by rw [hstart], by rw [hstart], ?_, ?_⟩
  · rw [hstart, hdb]
    exact hlen
  · rw [hstart]
    dsimp only
    rw [List.all_append, hall]
    decide

/-- C2 witness: a device reporting 120 resident steps (above the
50-step threshold) makes the preflight return not-ready with the
save-first message, and the gated start performs no insert and no
belt-start. -/
theorem c2_witness :
    SecurityService.has_significant_data ⟨0, 120, 0⟩ = true
    ∧ (SecurityService.check_and_clean_state sigSecEnv [] 0).1 =
        (false, some SecurityService.unsavedDataMsg)
    ∧ (ExerciseService.start_session (sigStartEnv 0) emptyState).1 =
        .error SecurityService.unsavedDataMsg
    ∧ ((ExerciseService.start_session (sigStartEnv 0) emptyState).2.2.all
        fun op => !opIsInsert op && !opIsStartBelt op) = true := by
  have hsig : SecurityService.has_significant_data ⟨0, 120, 0⟩ = true := by
    norm_num [SecurityService.has_significant_data]
  have h := c2_significant_data_blocks sigSecEnv [] 0 ⟨"idle"⟩ ⟨0, 120, 0⟩
    rfl rfl rfl rfl hsig
  have h2 := h.2 (sigStartEnv 0) emptyState rfl rfl rfl
  exact ⟨hsig, h.1, h2.1, h2.2.2.2⟩

/-- C10 witness: a preflight whose very first device call raises a
connection error returns `ready = false` with the failure message
instead of raising. -/
theorem c10_witness :
    (SecurityService.check_and_clean_inner errSecEnv [] 0).1 =
      .error "Connection failed"
    ∧ (SecurityService.check_and_clean_state errSecEnv [] 0).1 =
      (false, some (SecurityService.stateCleanupFailedMsg
        "Connection failed")) :=
  ⟨rfl, (c10_never_raises errSecEnv [] 0).1 "Connection failed" rfl⟩

/-- C9: every open session started more than three hours ago is
rewritten by the preflight cleanup (when its UPDATEs succeed) to the
auto-closed row: `end_time = min(start_time + 30 min, now)`,
`duration_seconds = end_time - start_time`, the auto-closed note; and
when the session is old enough (`start_time + 30 min ≤ now`, e.g. four
hours old) the chosen end time is exactly `start_time + 30 min`. -/
theorem c9_stale_auto_close (db : List Row) (now : ℤ) (r : Row)
    (hmem : r ∈ db) (hopen : r.endTime = none)
    (hstale : r.startTime < now - SecurityService.STALE_SECONDS)
    (hnodup : (db.map Row.id).Nodup) :
    SecurityService.autoCloseUpdate r r.startTime now ∈
      SecurityService.cleanup_incomplete_sessions db
        (SecurityService.check_incomplete_sessions db now) now none
    ∧ (SecurityService.autoCloseUpdate r r.startTime now).endTime =
        some (SecurityService.estimated_end r.startTime now)
    ∧ (SecurityService.autoCloseUpdate r r.startTime now).durationSeconds =
        SecurityService.estimated_end r.startTime now - r.startTime
    ∧ (SecurityService.autoCloseUpdate r r.startTime now).notes =
        some SecurityService.autoCloseNote
    ∧ (r.startTime + 1800 ≤ now →
        SecurityService.estimated_end r.startTime now = r.startTime + 1800) := by
  refine ⟨?_, rfl, rfl, rfl, fun h => by
    unfold SecurityService.estimated_end; omega⟩
  have hrs : r ∈ SecurityService.check_incomplete_sessions db now := by
    simp only [SecurityService.check_incomplete_sessions, List.mem_filter]
    exact ⟨hmem, by simp [hopen, hstale]⟩
  have hnodup2 :
      ((SecurityService.check_incomplete_sessions db now).map Row.id).Nodup :=
    hnodup.sublist ((List.filter_sublist db).map Row.id)
  obtain ⟨l1, l2, hsplit⟩ := List.append_of_mem hrs
  rw [hsplit, List.map_append, List.map_cons, List.nodup_append] at hnodup2
  obtain ⟨hn1, hn2, hdisj⟩ := hnodup2
  have hid1 : ∀ s ∈ l1, s.id ≠ r.id := by
    intro s hs heq
    exact hdisj (List.mem_map_of_mem Row.id hs)
      (heq ▸ List.mem_cons_self r.id (l2.map Row.id))
  have hid2 : ∀ s ∈ l2, s.id ≠ r.id := by
    intro s hs heq
    exact (List.nodup_cons.mp hn2).1 (heq ▸ List.mem_map_of_mem Row.id hs)
  rw [SecurityService.cleanup_incomplete_sessions, cleanupGo_eq_map]
  exact List.mem_map.mpr ⟨r, hmem, by
    rw [hsplit]
    exact closeFold_append_unique now l1 l2 r hid1 hid2⟩

/-- C9 witness: a four-hour-old open session (started at 0, now 14400)
is auto-closed with end time `start_time + 30 min = 1800`, the matching
duration and the auto-closed note. -/
theorem c9_witness :
    staleRow ∈ [staleRow]
    ∧ staleRow.endTime = none
    ∧ staleRow.startTime < 14400 - SecurityService.STALE_SECONDS
    ∧ SecurityService.estimated_end staleRow.startTime 14400 =
        staleRow.startTime + 1800
    ∧ SecurityService.autoCloseUpdate staleRow staleRow.startTime 14400 ∈
        SecurityService.cleanup_incomplete_sessions [staleRow]
          (SecurityService.check_incomplete_sessions [staleRow] 14400)
          14400 none := by
  have h := c9_stale_auto_close [staleRow] 14400 staleRow
    (List.mem_singleton_self staleRow) rfl (by decide) (by decide)
  exact ⟨List.mem_singleton_self staleRow, rfl, by decide,
    h.2.2.2.2 (by decide), h.1⟩

/-- C8 counterexample: `ExerciseService.start_session` itself performs
no in-memory guard: called while an open session is tracked in memory
(`memState`), with a clean preflight it still invokes the preflight
validator (the stale-session SELECT appears in its trace), inserts a
new row and succeeds, instead of failing immediately. -/
theorem c8_counterexample :
    memState.mem.isSome = true
    ∧ exceptIsOk (ExerciseService.start_session (okStartEnv 3600)
        memState).1 = true
    ∧ (ExerciseService.start_session (okStartEnv 3600)
        memState).2.2.any opIsInsert = true
    ∧ Op.db .selectStale ∈
        (ExerciseService.start_session (okStartEnv 3600) memState).2.2 := by
  decide

/-- C8 (amended): the already-active guard lives in the HTTP
controller, not in the service: when a session is tracked in memory the
start endpoint returns the 409 conflict "An active session already
exists" without invoking the preflight validator, without touching the
store or the device (empty effect trace) and without changing any
state. -/
theorem c8_endpoint_guard (env : ExerciseService.StartEnv)
    (st : ExerciseService.ServiceState) (s : Row)
    (hmem : st.mem = some s) :
    ExerciseService.start_session_endpoint env st =
      (.conflict ExerciseService.activeSessionMsg, st, []) := by
  unfold ExerciseService.start_session_endpoint
  rw [hmem]

/-- C8 witness: the endpoint guard evaluated on a state tracking an
open session. -/
theorem c8_witness :
    memState.mem = some (ExerciseService.newSessionRow 0 0)
    ∧ ExerciseService.start_session_endpoint (okStartEnv 3600) memState =
      (.conflict ExerciseService.activeSessionMsg, memState, []) :=
  ⟨rfl, c8_endpoint_guard (okStartEnv 3600) memState
    (ExerciseService.newSessionRow 0 0) rfl⟩

/-- C3 counterexample: `ExerciseStreamService.start_session` with a
successful INSERT and three failed device-connection attempts issues a
`DELETE FROM exercise_sessions` for the row it just created: the trace
contains the delete and the table ends up without the row. -/
theorem c3_counterexample :
    (ExerciseStreamService.start_session streamFailEnv emptyState).2.2.any
      opIsDelete = true
    ∧ Op.db (.deleteSession 0) ∈
        (ExerciseStreamService.start_session streamFailEnv emptyState).2.2
    ∧ (ExerciseStreamService.start_session streamFailEnv emptyState).2.1.db
        = [] := by
  decide

/-- C3 (amended): the staleness-cleanup path and the
`ExerciseService` start/end paths never issue a DELETE — the cleanup
closes stale sessions by UPDATE only; but
`ExerciseStreamService.start_session` does delete the freshly inserted
row when the device connection fails after the INSERT. -/
theorem c3_no_delete_except_stream_cleanup :
    (∀ (env : SecurityService.Env) (db : List Row) (now : ℤ),
      ((SecurityService.check_and_clean_state env db now).2.2).all
        (fun op => !opIsDelete op) = true)
    ∧ (∀ (env : ExerciseService.StartEnv)
        (st : ExerciseService.ServiceState),
        ((ExerciseService.start_session env st).2.2).all
          (fun op => !opIsDelete op) = true)
    ∧ (∀ (env : ExerciseService.EndEnv)
        (st : ExerciseService.ServiceState),
        ((ExerciseService.end_session env st).2.2).all
          (fun op => !opIsDelete op) = true)
    ∧ (∀ (env : ExerciseStreamService.StreamStartEnv)
        (st : ExerciseService.ServiceState),
        env.insertOk = true →
        ExerciseStreamService.connectSucceeds env.connectAttempts = false →
        Op.db (.deleteSession st.nextId) ∈
          (ExerciseStreamService.start_session env st).2.2) := by
  refine ⟨sec_trace_no_delete, ?_, ?_, ?_⟩
  · intro env st
    rcases hS : SecurityService.check_and_clean_state env.sec st.db env.now
      with ⟨v, db1, tr1⟩
    have htr1 : tr1.all (fun op => !opIsDelete op) = true := by
      have h := sec_trace_no_delete env.sec st.db env.now
      rw [hS] at h
      exact h
    unfold ExerciseService.start_session
    rw [hS]
    dsimp only
    by_cases hv : v.1 = false
    · rw [if_pos hv]
      rw [List.all_append, htr1]
      simp [opIsDelete]
    · rw [if_neg hv]
      rcases hw : env.startWalking with e | u
      · rw [List.all_append, htr1]
        simp [opIsDelete]
      · by_cases hins : env.insertOk = true
        · rw [if_pos hins]
          rw [List.all_append, List.all_append, htr1]
          simp [opIsDelete]
        · rw [if_neg hins]
          rw [List.all_append, List.all_append, htr1]
          simp [opIsDelete]
  · intro env st
    rcases hm : st.mem with _ | s <;>
      rcases hlo : ExerciseService.latestOpenRow st.db with _ | f
    all_goals unfold ExerciseService.end_session
    all_goals rw [hm, hlo]
    all_goals repeat' split
    all_goals simp [opIsDelete, ExerciseService.endTrace0]
  · intro env st hins hcf
    unfold ExerciseStreamService.start_session
    rw [hins, hcf]
    simp

/-- C3 witness: the streaming start's failure path deletes the created
row, while a concrete preflight run issues no delete. -/
theorem c3_witness :
    streamFailEnv.insertOk = true
    ∧ ExerciseStreamService.connectSucceeds streamFailEnv.connectAttempts
        = false
    ∧ Op.db (.deleteSession 0) ∈
        (ExerciseStreamService.start_session streamFailEnv emptyState).2.2
    ∧ ((SecurityService.check_and_clean_state cleanSecEnv [] 0).2.2).all
        (fun op => !opIsDelete op) = true :=
  ⟨rfl, rfl,
   c3_no_delete_except_stream_cleanup.2.2.2 streamFailEnv emptyState rfl rfl,
   c3_no_delete_except_stream_cleanup.1 cleanSecEnv [] 0⟩

theorem openCount_append (l1 l2 : List Row) :
    openCount (l1 ++ l2) = openCount l1 + openCount l2 := by
  simp [openCount, List.filter_append]

theorem inv_start (env : ExerciseService.StartEnv)
    (st : ExerciseService.ServiceState) (h : ExerciseService.Inv st) :
    ExerciseService.Inv
      (ExerciseService.start_session_endpoint env st).2.1 := by
  unfold ExerciseService.start_session_endpoint
  rcases hm : st.mem with _ | s
  · -- no tracked session: the service path runs
    have h0 : openCount st.db = 0 := h.1 hm
    rcases hS : SecurityService.check_and_clean_state env.sec st.db env.now
      with ⟨v, db1, tr1⟩
    have hdb1 : openCount db1 = 0 := by
      have hle := sec_db_openCount_le env.sec st.db env.now
      rw [hS, h0] at hle
      exact Nat.le_zero.mp hle
    have hnone : ∀ r ∈ db1, r.endTime ≠ none := openCount_eq_zero.mp hdb1
    have herr : ExerciseService.Inv { st with db := db1 } := by
      constructor
      · intro _
        exact hdb1
      · intro s' hs'
        have hs2 : st.mem = some s' := hs'
        rw [hm] at hs2
        simp at hs2
    unfold ExerciseService.start_session
    rw [hS]
    dsimp only
    by_cases hv : v.1 = false
    · rw [if_pos hv]
      exact herr
    · rw [if_neg hv]
      rcases hw : env.startWalking with e | u
      · exact herr
      · by_cases hins : env.insertOk = true
        · rw [if_pos hins]
          dsimp only
          constructor
          · intro hc
            simp at hc
          · intro s' hs'
            have heq : ExerciseService.newSessionRow st.nextId env.now = s' := by
              have hs2 : some (ExerciseService.newSessionRow st.nextId env.now)
                  = some s' := hs'
              rw [Option.some.injEq] at hs2
              exact hs2
            constructor
            · intro row hrow hopen
              rcases List.mem_append.mp hrow with h1 | h2
              · exact absurd hopen (hnone row h1)
              · rw [List.mem_singleton] at h2
                rw [h2, ← heq]
            · rw [openCount_append, hdb1]
              simp [openCount, ExerciseService.newSessionRow]
        · rw [if_neg hins]
          exact herr
  · -- a session is tracked: the endpoint rejects, state unchanged
    exact h

theorem inv_stop (env : ExerciseService.EndEnv)
    (st : ExerciseService.ServiceState) (h : ExerciseService.Inv st) :
    ExerciseService.Inv
      (ExerciseService.stop_session_endpoint env st).2.1 := by
  unfold ExerciseService.stop_session_endpoint
  rcases hm : st.mem with _ | s
  · exact h
  · obtain ⟨hclause, hcount⟩ := h.2 s hm
    have h1 : ExerciseService.Inv { st with mem := some s } := by
      constructor
      · intro hc
        have hc2 : (some s : Option Row) = none := hc
        simp at hc2
      · intro s' hs'
        have hs2 : (some s : Option Row) = some s' := hs'
        rw [Option.some.injEq] at hs2
        subst hs2
        exact ⟨hclause, hcount⟩
    unfold ExerciseService.end_session
    rw [hm]
    dsimp only
    rcases hw : env.stopWalking with e | u
    · exact h1
    · rcases hc : ExerciseService.endCalories env s with _ | cals
      · exact h1
      · dsimp only
        by_cases hu : env.updateOk = true
        · rw [if_pos hu]
          dsimp only
          constructor
          · intro _
            rw [openCount_eq_zero]
            intro r hr heq
            obtain ⟨r1, hr1, rfl⟩ := List.mem_map.mp hr
            by_cases hid : r1.id = s.id
            · rw [if_pos hid] at heq
              simp [ExerciseService.endUpdate] at heq
            · rw [if_neg hid] at heq
              exact hid (hclause r1 hr1 heq)
          · intro s' hs'
            have hs2 : (none : Option Row) = some s' := hs'
            simp at hs2
        · rw [if_neg hu]
          exact h1

theorem inv_runSteps (steps : List ExerciseService.Step) :
    ∀ st : ExerciseService.ServiceState, ExerciseService.Inv st →
    (steps.all fun s => !ExerciseService.Step.isRestart s) = true →
    ExerciseService.Inv (ExerciseService.runSteps st steps) := by
  induction steps with
  | nil => intro st h _; exact h
  | cons stp rest ih =>
      intro st h hall
      rw [List.all_cons, Bool.and_eq_true] at hall
      rcases stp with envS | envE | _
      · exact ih _ (inv_start envS st h) hall.2
      · exact ih _ (inv_stop envE st h) hall.2
      · exact absurd hall.1 (by simp [ExerciseService.Step.isRestart])

/-- C1 counterexample: a successful start, a process restart (the
in-memory tracking is lost, no session row is touched), and a second
start one hour later with a clean device: the second `startSession`
succeeds through the endpoint and inserts a new open row while the
first row (only one hour old, so not auto-closed by the staleness
cleanup) is still open — two rows with `end_time = NULL`. -/
theorem c1_counterexample :
    openCount c1State.db = 1
    ∧ c1State.mem = none
    ∧ (ExerciseService.start_session_endpoint (okStartEnv 3600)
        c1State).1 = .ok 1
    ∧ openCount (ExerciseService.start_session_endpoint (okStartEnv 3600)
        c1State).2.1.db = 2 := by
  decide

/-- C1 (amended): for every restart-free sequence of interleaved
start/end endpoint calls from the empty store, at most one
`exercise_sessions` row is open at any time — the controller guard
blocks a start while a session is tracked in memory, and every other
path only closes rows.  (The unrestricted claim fails across a process
restart, see the counterexample: the preflight only auto-closes rows
older than three hours and intentionally lets a start proceed past a
younger open row.) -/
theorem c1_restart_free_at_most_one_open
    (steps : List ExerciseService.Step)
    (hfree : (steps.all fun s => !ExerciseService.Step.isRestart s)
      = true) :
    openCount (ExerciseService.runSteps emptyState steps).db ≤ 1 := by
  have hinv : ExerciseService.Inv
      (ExerciseService.runSteps emptyState steps) :=
    inv_runSteps steps emptyState
      ⟨fun _ => rfl, fun s hs => Option.noConfusion hs⟩ hfree
  rcases hmem : (ExerciseService.runSteps emptyState steps).mem with _ | s
  · rw [hinv.1 hmem]
    omega
  · exact (hinv.2 s hmem).2

/-- C1 witness: the invariant evaluated on a concrete restart-free
history consisting of one successful start. -/
theorem c1_witness :
    (([ExerciseService.Step.start (okStartEnv 0)] :
        List ExerciseService.Step).all
      fun s => !ExerciseService.Step.isRestart s) = true
    ∧ openCount (ExerciseService.runSteps emptyState
        [ExerciseService.Step.start (okStartEnv 0)]).db ≤ 1 :=
  ⟨rfl, c1_restart_free_at_most_one_open
    [ExerciseService.Step.start (okStartEnv 0)] rfl⟩

end WalkingPad
